import Mathlib

/-!
# Verification of the Modified Dietz performance return engine

Shallow embedding of the return-engine logic of the repository
`InvestmentAnalytics-with-Modified-Dietz-Method`.  Amounts, prices,
quantities and returns are modelled as exact rationals (`ℚ`); a value that
the Python code leaves as `NaN`/`None`/`±inf`-replaced-by-`None` (pandas
"missing") is modelled as `none : Option ℚ`, since every downstream
consumer in the source distinguishes values only through `pd.notnull` /
`skipna` / `fillna`.

Each definition is translated from a named function of the source tree;
the source file and function are given in the doc comment.
-/

namespace InvestmentAnalytics

/-- Transaction event categories, from `categorize_transaction` in
`src/returns/investment_returns.py` (mapping of Robinhood `Trans Code`:
`Buy`, `Sell`, `CDIV ↦ Dividend`, `SPL ↦ Split`, anything else `Other`). -/
inductive EventType where
  | Buy
  | Sell
  | Dividend
  | Split
  | Other
deriving DecidableEq

/-- A transaction as seen by the engine inside one period:
`dayOffset = (Activity_Date − Period_Start).days` (0 on the first calendar
day of the period), the categorized `Event_Type`, the `Quantity`, and the
sign-adjusted cash amount `Adjusted_Amount` (`adjust_cash_flow_sign`:
positive for buys, negative for sells, original sign otherwise). -/
structure Txn where
  dayOffset : ℤ
  event_type : EventType
  quantity : ℚ
  amount : ℚ
deriving DecidableEq

/-- One row of the Weighted Cash Flow table produced by
`calculate_wcf_table` (`src/returns/investment_returns.py`, lines 105–127):
`t_i`, `W_i (Weight)` and `W_i * F_i (Weighted Contribution)`. -/
structure WcfRow where
  t_i : ℤ
  weight : ℚ
  contribution : ℚ
deriving DecidableEq

/-- Embedding of `calculate_wcf_table` (`src/returns/investment_returns.py`, lines
105–127), for a single period of `T` days: for each transaction of the
period, `t_i = (Activity_Date − period_start).days + 1`,
`W_i = (T − t_i + 1) / T`, `weighted_contribution = W_i * Adjusted_Amount`. -/
def calculate_wcf_table (T : ℤ) (txns : List Txn) : List WcfRow :=
  txns.map fun txn =>
    let t_i : ℤ := txn.dayOffset + 1
    let W_i : ℚ := ((T : ℚ) - (t_i : ℚ) + 1) / (T : ℚ)
    ⟨t_i, W_i, W_i * txn.amount⟩

/-- The per-period `WCF` aggregate of `calculate_metrics`
(`src/returns/investment_returns.py`, lines 165–170): the sum of the
weighted contributions of the period's WCF-table rows. -/
def wcf_aggregated (T : ℤ) (txns : List Txn) : ℚ :=
  ((calculate_wcf_table T txns).map (·.contribution)).sum

/-- The `Net_CF` aggregate of `calculate_equity_nav`
(`src/returns/investment_returns.py`, lines 130–132): sum of
`Adjusted_Amount` over the period's `Buy`/`Sell` transactions only. -/
def net_cf (txns : List Txn) : ℚ :=
  ((txns.filter fun t =>
      t.event_type = EventType.Buy ∨ t.event_type = EventType.Sell).map
    (·.amount)).sum

/-- The `P&L` column of `calculate_metrics`
(`src/returns/investment_returns.py`, line 171):
`Equity_NAV_EOM − Equity_NAV_BOM − Net_CF`. -/
def pnl (nav_bom nav_eom ncf : ℚ) : ℚ :=
  nav_eom - nav_bom - ncf

/-- The `Average_Capital` column of `calculate_metrics`
(`src/returns/investment_returns.py`, line 172):
`Equity_NAV_BOM + WCF`. -/
def average_capital (nav_bom wcf : ℚ) : ℚ :=
  nav_bom + wcf

/-- The `Modified_Dietz_Return` column of `calculate_metrics`
(`src/returns/investment_returns.py`, lines 173–175):
`P&L / Average_Capital`, with `±inf` replaced by `None`.  In pandas a zero
`Average_Capital` yields `±inf` (replaced by `None`) or `NaN` (for `0/0`),
and both are "missing" for every downstream `pd.notnull`/`skipna`/`fillna`
consumer, so a zero denominator is embedded as `none`. -/
def modified_dietz_return (nav_bom nav_eom ncf wcf : ℚ) : Option ℚ :=
  if average_capital nav_bom wcf = 0 then none
  else some (pnl nav_bom nav_eom ncf / average_capital nav_bom wcf)

/-- The per-transaction position delta applied by
`calculate_cumulative_shares` (`src/returns/investment_returns.py`, lines
84–97): `Buy` adds `Quantity`, `Sell` subtracts it, `Split` with positive
`Quantity` adds it, every other event leaves the position unchanged. -/
def shares_delta (t : Txn) : ℚ :=
  match t.event_type with
  | EventType.Buy => t.quantity
  | EventType.Sell => -t.quantity
  | EventType.Split => if t.quantity > 0 then t.quantity else 0
  | _ => 0

/-- Embedding of `calculate_cumulative_shares` (`src/returns/investment_returns.py`,
lines 84–97): the running `Cumulative_Shares` column, one entry per
transaction, starting from `total_shares = 0`. -/
def calculate_cumulative_shares (txns : List Txn) : List ℚ :=
  go 0 txns
where
  go (total_shares : ℚ) : List Txn → List ℚ
    | [] => []
    | t :: rest =>
        let total2 := total_shares + shares_delta t
        total2 :: go total2 rest

/-- The `Shares_EOM`/`Shares_BOM` columns of `calculate_equity_nav`
(`src/returns/investment_returns.py`, lines 134–140), for an instrument
whose transactions are grouped into consecutive monthly periods:
`Shares_EOM` of a period is the last `Cumulative_Shares` value of the
period (forward-filled from the previous period when the period has no
transactions, `0` before any transaction), and
`Shares_BOM = Shares_EOM.shift(1, fill_value=0)`.  Output: one
`(Shares_BOM, Shares_EOM)` pair per period. -/
def calculate_equity_nav_shares (periods : List (List Txn)) : List (ℚ × ℚ) :=
  go 0 periods
where
  go (carried : ℚ) : List (List Txn) → List (ℚ × ℚ)
    | [] => []
    | p :: rest =>
        let eom := carried + (p.map shares_delta).sum
        (carried, eom) :: go eom rest

/-- The accumulator threaded by `calculate_geometric_returns`
(`src/returns/investment_returns.py`, lines 178–191): `cumulative_return`
after consuming a list of `Modified_Dietz_Return` values, starting from
`acc`; a non-null return `r` multiplies by `(1 + r)`, a missing one is
skipped. -/
def cumulative_return_after (acc : ℚ) (rets : List (Option ℚ)) : ℚ :=
  rets.foldl
    (fun cumulative r =>
      match r with
      | some v => cumulative * (1 + v)
      | none => cumulative)
    acc

/-- Loop body of `calculate_geometric_returns`
(`src/returns/investment_returns.py`, lines 178–191) with the
`cumulative_return` accumulator made explicit. -/
def geometric_returns_go (acc : ℚ) : List (Option ℚ) → List ℚ
  | [] => []
  | r :: rest =>
      let acc2 :=
        match r with
        | some v => acc * (1 + v)
        | none => acc
      (acc2 - 1) :: geometric_returns_go acc2 rest

/-- Embedding of `calculate_geometric_returns` (`src/returns/investment_returns.py`,
lines 178–191; identical in
`src/analytics/performance/investment_returns.py`, lines 161–174): the
`Geometric_Linked_Return` column.  `cumulative_return` starts at 1, each
non-null `Modified_Dietz_Return` multiplies it by `(1 + md_return)`, a
null one leaves it unchanged, and every period (null or not) appends
`cumulative_return - 1`. -/
def calculate_geometric_returns (rets : List (Option ℚ)) : List ℚ :=
  geometric_returns_go 1 rets

/-- Embedding of `calculate_geometric_linked_returns` (`src/TOST_return.py`, lines
90–106), one input row per period: `(Cumulative_Net_Tx,
Modified_Dietz_Return)`.  `linked_return` starts at 0; a period with
`Cumulative_Net_Tx == 0` resets it to 0, otherwise
`linked_return = ((1 + linked_return/100) * (1 + md_return/100) - 1) * 100`. -/
def calculate_geometric_linked_returns (rows : List (ℚ × ℚ)) : List ℚ :=
  go 0 rows
where
  go (linked_return : ℚ) : List (ℚ × ℚ) → List ℚ
    | [] => []
    | (cum_net_tx, md_return) :: rest =>
        if cum_net_tx = 0 then
          (0 : ℚ) :: go 0 rest
        else
          let linked2 := ((1 + linked_return / 100) * (1 + md_return / 100) - 1) * 100
          linked2 :: go linked2 rest

/-- The no-reset `Geometrically_Linked_Return` column of
`src/tost_return_analytics.py`, lines 107–110 (and the `LTD_Return` column
of `src/TOST_return.py`, lines 110–112):
`((1 + Modified_Dietz_Return / 100).cumprod() - 1) * 100`.  Pandas
`cumprod` skips a `NaN` entry (the running product is unchanged) but still
emits `NaN` at that position. -/
def ltd_return_cumprod (rets : List (Option ℚ)) : List (Option ℚ) :=
  go 1 rets
where
  go (acc : ℚ) : List (Option ℚ) → List (Option ℚ)
    | [] => []
    | some r :: rest =>
        let acc2 := acc * (1 + r / 100)
        some ((acc2 - 1) * 100) :: go acc2 rest
    | none :: rest => none :: go acc rest

/-- One component row produced by `calculate_wcf_components`
(`src/etl/asset_value_records.py`, lines 78–118). -/
structure WcfComponent where
  t_i : ℤ
  weight : ℚ
  cash_flow_contribution : ℚ
deriving DecidableEq

/-- Embedding of `calculate_wcf_components` (`src/etl/asset_value_records.py`, lines
78–118), for one period: `total_days = (end − start).days + 1`,
`t_i = (activity_date − start_date).days` (note: no `+ 1`, unlike
`calculate_wcf_table`), `weight = (total_days − t_i + 1) / total_days`,
`cash_flow_contribution = amount * weight` (a `NaN` amount is treated as
0, which the `ℚ`-valued embedding carries as an ordinary 0), and the
returned `wcf` is the sum of the contributions. -/
def calculate_wcf_components (total_days : ℤ) (txns : List Txn) :
    ℚ × List WcfComponent :=
  let components := txns.map fun txn =>
    let t_i : ℤ := txn.dayOffset
    let weight : ℚ := ((total_days : ℚ) - (t_i : ℚ) + 1) / (total_days : ℚ)
    WcfComponent.mk t_i weight (txn.amount * weight)
  ((components.map (·.cash_flow_contribution)).sum, components)

/-- The `net_shares_change` aggregate of `summarize_transactions`
(`src/etl/process_asset_value.py`, lines 86–114): the plain sum of the
`quantity` column over the period's transactions — no sign adjustment by
event type (the `transactions` table stores quantities as ingested from
the brokerage CSV, positive for sells as well as buys). -/
def net_shares_change (txns : List Txn) : ℚ :=
  (txns.map (·.quantity)).sum

/-- Embedding of `per_instrument_calc` inside `calculate_asset_values`
(`src/etl/process_asset_value.py`, lines 145–155): threads
`current_shares` (starting at 0) through the instrument's monthly rows;
each row gets `shares_bom = current_shares`,
`shares_eom = current_shares + net_shares_change`, and `current_shares`
becomes `shares_eom`.  Input: one `net_shares_change` per monthly row;
output: one `(shares_bom, shares_eom)` pair per row. -/
def per_instrument_calc (rows : List ℚ) : List (ℚ × ℚ) :=
  go 0 rows
where
  go (current_shares : ℚ) : List ℚ → List (ℚ × ℚ)
    | [] => []
    | change :: rest =>
        (current_shares, current_shares + change) :: go (current_shares + change) rest

/-- The dense monthly period index of `src/tost_return_analytics.py`,
lines 62–65 (`pd.period_range(start, end, freq='M')` followed by
`reindex`): months are integers (a `pd.Period('M')` is an integer month
ordinal), and the index holds every month from `startM` to `endM`
inclusive. -/
def all_periods (startM endM : ℤ) : List ℤ :=
  (List.range (endM - startM + 1).toNat).map fun i : ℕ => startM + (i : ℤ)

/-- The month keys kept by the `pd.merge(trans_df, market_data, ...,
how='inner')` of `calculate_asset_values`
(`src/etl/process_asset_value.py`, lines 130–139), for one instrument:
only months that appear in BOTH the transaction summary (months with at
least one transaction) and the market data. -/
def calculate_asset_values_months (txnMonths priceMonths : List ℤ) : List ℤ :=
  txnMonths.filter fun m => m ∈ priceMonths

/-- A calendar date, as used for `period_end_date` in
`src/analytics/performance/performance_dashboard.py` (`month` is 1–12,
`day` is 1-based). -/
structure Date where
  year : ℤ
  month : ℤ
  day : ℤ
deriving DecidableEq

/-- Chronological `≤` on dates (the pandas datetime order used by the
`period_end_date >= start` filters of the dashboard). -/
def date_le (a b : Date) : Bool :=
  decide (a.year < b.year ∨
    (a.year = b.year ∧
      (a.month < b.month ∨ (a.month = b.month ∧ a.day ≤ b.day))))

/-- Chronological `<` on dates (the `period_end_date > cutoff_date`
filters of the dashboard's trailing windows). -/
def date_lt (a b : Date) : Bool :=
  decide (a.year < b.year ∨
    (a.year = b.year ∧
      (a.month < b.month ∨ (a.month = b.month ∧ a.day < b.day))))

/-- Subtracting `k` months from a `(year, month)` pair, as
`pd.DateOffset(months=k)` does: arithmetic on the total month ordinal
`year*12 + (month − 1)`, floored back into year/month. -/
def sub_months (y m k : ℤ) : ℤ × ℤ :=
  let t := y * 12 + (m - 1) - k
  (t / 12, t % 12 + 1)

/-- Gregorian leap-year test (used only for day clamping in
`date_sub_months`). -/
def is_leap_year (y : ℤ) : Bool :=
  decide ((y % 4 = 0 ∧ y % 100 ≠ 0) ∨ y % 400 = 0)

/-- Number of days of a calendar month. -/
def days_in_month (y m : ℤ) : ℤ :=
  if m = 2 then (if is_leap_year y then 29 else 28)
  else if m = 4 ∨ m = 6 ∨ m = 9 ∨ m = 11 then 30
  else 31

/-- Embedding of `date − pd.DateOffset(months=k)`: shift the month and clamp the day to
the target month's length, as pandas does. -/
def date_sub_months (d : Date) (k : ℤ) : Date :=
  let ym := sub_months d.year d.month k
  ⟨ym.1, ym.2, min d.day (days_in_month ym.1 ym.2)⟩

/-- Embedding of `months_into_quarter = (current_month - 1) % 3`
(`src/analytics/performance/performance_dashboard.py`, line 124). -/
def months_into_quarter (m : ℤ) : ℤ :=
  (m - 1) % 3

/-- Embedding of `mtd_start = latest_month.replace(day=1)`
(`src/analytics/performance/performance_dashboard.py`, line 119). -/
def mtd_start (latest_month : Date) : Date :=
  ⟨latest_month.year, latest_month.month, 1⟩

/-- Embedding of `qtd_start = latest_month.replace(day=1) -
pd.DateOffset(months=months_into_quarter)`
(`src/analytics/performance/performance_dashboard.py`, line 125). -/
def qtd_start (latest_month : Date) : Date :=
  date_sub_months (mtd_start latest_month) (months_into_quarter latest_month.month)

/-- Embedding of `ytd_start = latest_month.replace(month=1, day=1)`
(`src/analytics/performance/performance_dashboard.py`, line 129). -/
def ytd_start (latest_month : Date) : Date :=
  ⟨latest_month.year, 1, 1⟩

/-- One row of `asset_value_view` as consumed by the dashboard: the
period's end date and its Modified Dietz return (`md_return`; a database
NULL is `none`). -/
structure AVRow where
  period_end_date : Date
  md_return : Option ℚ
deriving DecidableEq

/-- Embedding of `data["period_end_date"].max()`: the latest period end date of a
row set (`none` for an empty set). -/
def max_period_end (data : List AVRow) : Option Date :=
  data.foldl
    (fun acc r =>
      match acc with
      | none => some r.period_end_date
      | some d => some (if date_le d r.period_end_date then r.period_end_date else d))
    none

/-- Embedding of `calculate_twr` (`src/analytics/performance/performance_dashboard.py`,
lines 73–84): `None` on an empty row set, otherwise
`Π(1 + md_return) − 1` with `prod(skipna=True)` skipping the missing
returns. -/
def calculate_twr (data : List AVRow) : Option ℚ :=
  if data.isEmpty then none
  else some (((data.filterMap (·.md_return)).map fun r => 1 + r).prod - 1)

/-- Embedding of `calculate_trailing_return`
(`src/analytics/performance/performance_dashboard.py`, lines 87–97):
`None` on an empty row set, otherwise the TWR of the rows dated strictly
after `max_date − months` (`max_date` cannot be null here since the row
set is a list of concrete dates). -/
def calculate_trailing_return (data : List AVRow) (months : ℤ) : Option ℚ :=
  if data.isEmpty then none
  else
    match max_period_end data with
    | none => none
    | some max_date =>
        let cutoff_date := date_sub_months max_date months
        calculate_twr (data.filter fun r => date_lt cutoff_date r.period_end_date)

/-- One output row of the multi-horizon summary table
(`Instrument, MTD, QTD, YTD, TTM, T2Y, LTD`). -/
structure SummaryRow where
  instrument : String
  mtd : Option ℚ
  qtd : Option ℚ
  ytd : Option ℚ
  ttm : Option ℚ
  t2y : Option ℚ
  ltd : Option ℚ
deriving DecidableEq

/-- The per-instrument body of the loop in `calculate_linked_returns`
(`src/analytics/performance/performance_dashboard.py`, lines 108–141):
`latest_month` is the group's max `period_end_date`; MTD/QTD/YTD keep the
rows with `period_end_date >= mtd_start/qtd_start/ytd_start`; TTM and T2Y
are 12- and 24-month trailing returns; LTD is the TWR of the whole group.
(Called on nonempty groups only; the `getD` default is never reached.) -/
def instrument_summary (instrument : String) (group : List AVRow) : SummaryRow :=
  let latest_month := (max_period_end group).getD ⟨0, 1, 1⟩
  let mtd_data := group.filter fun r => date_le (mtd_start latest_month) r.period_end_date
  let qtd_data := group.filter fun r => date_le (qtd_start latest_month) r.period_end_date
  let ytd_data := group.filter fun r => date_le (ytd_start latest_month) r.period_end_date
  ⟨instrument, calculate_twr mtd_data, calculate_twr qtd_data, calculate_twr ytd_data,
    calculate_trailing_return group 12, calculate_trailing_return group 24,
    calculate_twr group⟩

/-- The loop of `calculate_linked_returns`
(`src/analytics/performance/performance_dashboard.py`, lines 103–141),
before the final sort: one summary row per instrument group, skipping
empty groups (`if group.empty: continue`; a `groupby` never yields an
empty group, but the guard is in the source so the embedding keeps it). -/
def calculate_linked_returns_rows (groups : List (String × List AVRow)) :
    List SummaryRow :=
  groups.filterMap fun g =>
    if g.2.isEmpty then none else some (instrument_summary g.1 g.2)

/-- Comparator of `summary_df.sort_values(by="LTD", ascending=False)`:
larger LTD first, missing LTD last (pandas puts `NaN` last). -/
def ltd_desc_le (a b : SummaryRow) : Bool :=
  match a.ltd, b.ltd with
  | none, none => true
  | none, some _ => false
  | some _, none => true
  | some x, some y => decide (y ≤ x)

/-- Insertion of one row into a list sorted by `ltd_desc_le`. -/
def insert_by_ltd (a : SummaryRow) : List SummaryRow → List SummaryRow
  | [] => [a]
  | b :: rest =>
      if ltd_desc_le a b then a :: b :: rest else b :: insert_by_ltd a rest

/-- Sorting by LTD descending (`sort_values(by="LTD", ascending=False)`,
`src/analytics/performance/performance_dashboard.py`, line 145). -/
def sort_by_ltd : List SummaryRow → List SummaryRow
  | [] => []
  | a :: rest => insert_by_ltd a (sort_by_ltd rest)

/-- Embedding of `calculate_linked_returns`
(`src/analytics/performance/performance_dashboard.py`, lines 100–146):
the per-instrument summary rows, sorted by LTD descending. -/
def calculate_linked_returns (groups : List (String × List AVRow)) :
    List SummaryRow :=
  sort_by_ltd (calculate_linked_returns_rows groups)

/-- Embedding of `portfolio_twr` inside `calculate_portfolio_returns`
(`src/analytics/performance/performance_dashboard.py`, lines 202–206):
`None` on an empty slice, otherwise `Π(1 + md_return.fillna(0)) − 1` — a
missing monthly return becomes the factor `1 + 0`. -/
def portfolio_twr (data : List AVRow) : Option ℚ :=
  if data.isEmpty then none
  else some ((data.map fun r => 1 + r.md_return.getD 0).prod - 1)

/-- Embedding of `calculate_portfolio_returns`
(`src/analytics/performance/performance_dashboard.py`, lines 190–241): an
empty portfolio series returns the empty dict (embedded as `none`);
otherwise one `"PORTFOLIO"` row with the six horizon returns computed by
`portfolio_twr` over the MTD/QTD/YTD/TTM/T2Y/LTD slices. -/
def calculate_portfolio_returns (df_port : List AVRow) : Option SummaryRow :=
  if df_port.isEmpty then none
  else
    let latest_month := (max_period_end df_port).getD ⟨0, 1, 1⟩
    let mtd_data := df_port.filter fun r => date_le (mtd_start latest_month) r.period_end_date
    let qtd_data := df_port.filter fun r => date_le (qtd_start latest_month) r.period_end_date
    let ytd_data := df_port.filter fun r => date_le (ytd_start latest_month) r.period_end_date
    let ttm_data := df_port.filter fun r => date_lt (date_sub_months latest_month 12) r.period_end_date
    let t2y_data := df_port.filter fun r => date_lt (date_sub_months latest_month 24) r.period_end_date
    some ⟨"PORTFOLIO", portfolio_twr mtd_data, portfolio_twr qtd_data,
      portfolio_twr ytd_data, portfolio_twr ttm_data, portfolio_twr t2y_data,
      portfolio_twr df_port⟩

/-! ## Helper lemmas -/

theorem cumulative_return_after_nil (acc : ℚ) :
    cumulative_return_after acc [] = acc := rfl

theorem cumulative_return_after_cons_some (acc v : ℚ) (rets : List (Option ℚ)) :
    cumulative_return_after acc (some v :: rets) =
      cumulative_return_after (acc * (1 + v)) rets := rfl

theorem cumulative_return_after_cons_none (acc : ℚ) (rets : List (Option ℚ)) :
    cumulative_return_after acc (none :: rets) =
      cumulative_return_after acc rets := rfl

theorem geometric_returns_go_length (acc : ℚ) (rets : List (Option ℚ)) :
    (geometric_returns_go acc rets).length = rets.length := by
  induction rets generalizing acc with
  | nil => rfl
  | cons r rest ih => cases r <;> simp [geometric_returns_go, ih]

theorem geometric_returns_go_getElem_succ_none (acc : ℚ) (rets : List (Option ℚ))
    (n : ℕ) (h : rets[n + 1]? = some none) :
    (geometric_returns_go acc rets)[n + 1]? = (geometric_returns_go acc rets)[n]? := by
  induction rets generalizing acc n with
  | nil => simp at h
  | cons r rest ih =>
    cases n with
    | zero =>
      cases rest with
      | nil => simp at h
      | cons r2 rest2 =>
        simp only [List.getElem?_cons_succ, List.getElem?_cons_zero,
          Option.some.injEq] at h
        subst h
        cases r <;> simp [geometric_returns_go]
    | succ m =>
      have h' : rest[m + 1]? = some none := by simpa using h
      cases r <;> simpa [geometric_returns_go] using ih _ m h'

theorem geometric_returns_go_getElem_succ_some (acc : ℚ) (rets : List (Option ℚ))
    (n : ℕ) (v : ℚ) (h : rets[n + 1]? = some (some v)) :
    (geometric_returns_go acc rets)[n + 1]? =
      ((geometric_returns_go acc rets)[n]?).map fun p => (1 + p) * (1 + v) - 1 := by
  induction rets generalizing acc n with
  | nil => simp at h
  | cons r rest ih =>
    cases n with
    | zero =>
      cases rest with
      | nil => simp at h
      | cons r2 rest2 =>
        simp only [List.getElem?_cons_succ, List.getElem?_cons_zero,
          Option.some.injEq] at h
        subst h
        cases r <;> simp [geometric_returns_go]
    | succ m =>
      have h' : rest[m + 1]? = some (some v) := by simpa using h
      cases r <;> simpa [geometric_returns_go] using ih _ m h'

theorem geometric_returns_go_getElem_all_none (acc : ℚ) (rets : List (Option ℚ))
    (n : ℕ) (hn : n < rets.length) (h : ∀ j, j ≤ n → rets[j]? = some none) :
    (geometric_returns_go acc rets)[n]? = some (acc - 1) := by
  induction rets generalizing acc n with
  | nil => simp at hn
  | cons r rest ih =>
    have h0 := h 0 (Nat.zero_le n)
    simp only [List.getElem?_cons_zero, Option.some.injEq] at h0
    subst h0
    cases n with
    | zero => simp [geometric_returns_go]
    | succ m =>
      have hm : m < rest.length := by simpa using hn
      have h' : ∀ j, j ≤ m → rest[j]? = some none := fun j hj => by
        simpa using h (j + 1) (Nat.succ_le_succ hj)
      simpa [geometric_returns_go] using ih acc m hm h'

theorem geometric_returns_go_append (acc : ℚ) (xs ys : List (Option ℚ)) :
    geometric_returns_go acc (xs ++ ys) =
      geometric_returns_go acc xs ++
        geometric_returns_go (cumulative_return_after acc xs) ys := by
  induction xs generalizing acc with
  | nil => simp [geometric_returns_go, cumulative_return_after_nil]
  | cons x rest ih =>
    cases x <;>
      simp [geometric_returns_go, cumulative_return_after_cons_some,
        cumulative_return_after_cons_none, ih]

theorem geometric_returns_go_getLastD (acc : ℚ) (rets : List (Option ℚ)) :
    (geometric_returns_go acc rets).getLastD (acc - 1) =
      cumulative_return_after acc rets - 1 := by
  induction rets generalizing acc with
  | nil => rfl
  | cons r rest ih =>
    cases r with
    | none =>
      rw [show geometric_returns_go acc (none :: rest) =
            (acc - 1) :: geometric_returns_go acc rest from rfl,
        List.getLastD_cons, cumulative_return_after_cons_none]
      exact ih acc
    | some v =>
      rw [show geometric_returns_go acc (some v :: rest) =
            (acc * (1 + v) - 1) :: geometric_returns_go (acc * (1 + v)) rest from rfl,
        List.getLastD_cons, cumulative_return_after_cons_some]
      exact ih (acc * (1 + v))

theorem geometric_linked_go_getElem_flat (linked : ℚ) (rows : List (ℚ × ℚ))
    (n : ℕ) (r : ℚ) (h : rows[n]? = some (0, r)) :
    (calculate_geometric_linked_returns.go linked rows)[n]? = some 0 := by
  induction rows generalizing linked n with
  | nil => simp at h
  | cons row rest ih =>
    obtain ⟨c, rr⟩ := row
    cases n with
    | zero =>
      simp only [List.getElem?_cons_zero, Option.some.injEq, Prod.mk.injEq] at h
      obtain ⟨h1, h2⟩ := h
      subst h1
      simp [calculate_geometric_linked_returns.go]
    | succ m =>
      have h' : rest[m]? = some (0, r) := by simpa using h
      by_cases hc : c = 0 <;>
        simp only [calculate_geometric_linked_returns.go, hc, if_true, if_false,
          List.getElem?_cons_succ] <;>
        exact ih _ m h'

theorem days_in_month_pos (y m : ℤ) : 1 ≤ days_in_month y m := by
  unfold days_in_month
  split_ifs <;> norm_num

theorem sub_months_eq (y m k : ℤ) (h1 : 1 ≤ m - k) (h2 : m - k ≤ 12) :
    sub_months y m k = (y, m - k) := by
  unfold sub_months
  simp only [Prod.mk.injEq]
  omega

theorem date_sub_months_day_one (y m k : ℤ) (h1 : 1 ≤ m - k) (h2 : m - k ≤ 12) :
    date_sub_months ⟨y, m, 1⟩ k = ⟨y, m - k, 1⟩ := by
  unfold date_sub_months
  rw [sub_months_eq y m k h1 h2]
  simp [min_eq_left (days_in_month_pos y (m - k))]

/-! ## Claim theorems -/

/-- C1: single-flow worked example.  For a 30-day period with
`nav_bom = 1000`, one Buy of signed amount 500 on day 15 (`t_i = 15`,
day offset 14) and `nav_eom = 1600`, the engine computes the transaction
weight `(30 − 15 + 1)/30`, `WCF = 500 × 16/30 = 800/3` (266.67 to
hundredths), `net_cash_flow = 500`, `pnl = 1600 − 1000 − 500 = 100`,
`average_capital = 1000 + 800/3 = 3800/3` (1266.67 to hundredths), and
`modified_dietz_return = 100 / (3800/3) = 3/38 ≈ 0.0789`. -/
theorem single_flow_worked_example :
    (calculate_wcf_table 30 [⟨14, EventType.Buy, 3, 500⟩]).map (·.weight) =
      [(30 - 15 + 1) / 30] ∧
    wcf_aggregated 30 [⟨14, EventType.Buy, 3, 500⟩] = 800 / 3 ∧
    |wcf_aggregated 30 [⟨14, EventType.Buy, 3, 500⟩] - 26667 / 100| < 1 / 200 ∧
    net_cf [⟨14, EventType.Buy, 3, 500⟩] = 500 ∧
    pnl 1000 1600 500 = 100 ∧
    average_capital 1000 (wcf_aggregated 30 [⟨14, EventType.Buy, 3, 500⟩]) =
      3800 / 3 ∧
    |(3800 : ℚ) / 3 - 126667 / 100| < 1 / 200 ∧
    modified_dietz_return 1000 1600 (net_cf [⟨14, EventType.Buy, 3, 500⟩])
      (wcf_aggregated 30 [⟨14, EventType.Buy, 3, 500⟩]) = some (3 / 38) ∧
    |(3 : ℚ) / 38 - 789 / 10000| < 1 / 10000 := by
  refine ⟨?_, ?_, ?_, ?_, ?_, ?_, ?_, ?_, ?_⟩ <;>
    norm_num [calculate_wcf_table, wcf_aggregated, net_cf, pnl, average_capital,
      modified_dietz_return, List.filter, abs_lt]

/-- C2: day-offset conventions.  In `calculate_wcf_table`
(`src/returns/investment_returns.py`) `t_i` is 1-indexed, so a first-day
transaction of a 30-day period has weight exactly 1 and a last-day
transaction has weight exactly 1/30, as the claim states.  In
`calculate_wcf_components` (`src/etl/asset_value_records.py`) `t_i` omits
the `+ 1`, so the same first-day transaction gets weight
`(30 − 0 + 1)/30 = 31/30 > 1`, contradicting the claimed formula and the
claimed bound `weight ≤ 1`. -/
theorem wcf_components_weight_exceeds_one :
    (calculate_wcf_table 30 [⟨0, EventType.Buy, 3, 100⟩]).map (·.weight) = [1] ∧
    (calculate_wcf_table 30 [⟨29, EventType.Buy, 3, 100⟩]).map (·.weight) =
      [1 / 30] ∧
    (calculate_wcf_components 30 [⟨0, EventType.Buy, 3, 100⟩]).2.map (·.weight) =
      [31 / 30] ∧
    ¬ ((31 : ℚ) / 30 ≤ 1) := by
  refine ⟨?_, ?_, ?_, ?_⟩ <;>
    norm_num [calculate_wcf_table, calculate_wcf_components]

/-- C6: position continuity vs. the unsigned quantity sum.  The
`per_instrument_calc` chain of `src/etl/process_asset_value.py` starts at
`shares_bom = 0` and satisfies `shares_eom = shares_bom + net_shares_change`
with period-to-period continuity, but `net_shares_change` is the raw sum of
the `quantity` column: for a period holding a Buy of 10 shares and a Sell
of 4 shares (both stored positive, as ingested) it yields
`shares_eom = 14`, whereas the signed-delta rule of the claim — implemented
by `calculate_cumulative_shares` / `calculate_equity_nav` in
`src/returns/investment_returns.py` — yields 6. -/
theorem net_shares_change_sign_bug :
    net_shares_change
      [⟨2, EventType.Buy, 10, 100⟩, ⟨5, EventType.Sell, 4, -40⟩] = 14 ∧
    per_instrument_calc [14] = [(0, 14)] ∧
    per_instrument_calc [14, -4] = [(0, 14), (14, 10)] ∧
    (calculate_cumulative_shares
      [⟨2, EventType.Buy, 10, 100⟩, ⟨5, EventType.Sell, 4, -40⟩]).getLastD 0 = 6 ∧
    calculate_equity_nav_shares
      [[⟨2, EventType.Buy, 10, 100⟩, ⟨5, EventType.Sell, 4, -40⟩]] = [(0, 6)] ∧
    (14 : ℚ) ≠ 6 := by
  refine ⟨?_, ?_, ?_, ?_, ?_, ?_⟩ <;>
    norm_num [net_shares_change, per_instrument_calc, per_instrument_calc.go,
      calculate_cumulative_shares, calculate_cumulative_shares.go,
      calculate_equity_nav_shares, calculate_equity_nav_shares.go, shares_delta]

/-- C8 counterexample: the inner join of `calculate_asset_values`
(`src/etl/process_asset_value.py`) keeps only months present in both the
transaction summary and the market data.  With transactions in months 0
and 2 and market data in months 0, 1, 2, the output months are `[0, 2]`:
month 1 lies between the first and last month of the range but does not
appear, refuting the claim that every month in range appears. -/
theorem asset_value_months_gap :
    calculate_asset_values_months [0, 2] [0, 1, 2] = [0, 2] ∧
    (0 : ℤ) ∈ calculate_asset_values_months [0, 2] [0, 1, 2] ∧
    (2 : ℤ) ∈ calculate_asset_values_months [0, 2] [0, 1, 2] ∧
    (1 : ℤ) ∉ calculate_asset_values_months [0, 2] [0, 1, 2] := by
  refine ⟨?_, ?_, ?_, ?_⟩ <;> norm_num [calculate_asset_values_months, List.filter]

/-- C8 amended: the `pd.period_range`-based period index
(`src/tost_return_analytics.py`, `src/TOST_return.py`,
`generate_time_series` in `src/etl/asset_value_records.py`) is dense and
gapless — every month between the range bounds appears exactly once — and
an all-zero period needs no special-casing: its Modified Dietz return is
simply missing (`modified_dietz_return 0 0 0 0 = none`).  The
`calculate_asset_values` merge of `src/etl/process_asset_value.py` is the
exception established by the counterexample. -/
theorem period_range_dense_months (s e m : ℤ) (h1 : s ≤ m) (h2 : m ≤ e) :
    m ∈ all_periods s e ∧ (all_periods s e).count m = 1 ∧
    modified_dietz_return 0 0 0 0 = none := by
  have hinj : Function.Injective fun i : ℕ => s + (i : ℤ) := by
    intro i j hij
    simp only at hij
    omega
  have hmem : m ∈ all_periods s e := by
    simp only [all_periods, List.mem_map, List.mem_range]
    exact ⟨(m - s).toNat, by omega, by omega⟩
  refine ⟨hmem, ?_, by norm_num [modified_dietz_return, average_capital]⟩
  have hnd : (all_periods s e).Nodup := by
    unfold all_periods
    exact (List.nodup_range _).map hinj
  exact List.count_eq_one_of_mem hnd hmem

/-- C8 amended, witness: density instantiated at range `[0, 2]`, month 1. -/
theorem period_range_dense_months_witness :
    (1 : ℤ) ∈ all_periods 0 2 ∧ (all_periods 0 2).count 1 = 1 ∧
    modified_dietz_return 0 0 0 0 = none :=
  period_range_dense_months 0 2 1 (by norm_num) (by norm_num)

/-- C9 counterexample: an entity whose series has no rows is omitted from
the multi-horizon summary, not given an all-missing row.  With instrument
`"A"` holding one row and instrument `"B"` holding none,
`calculate_linked_returns` emits only the `"A"` row. -/
theorem empty_group_omitted_from_summary :
    (calculate_linked_returns
        [("A", [⟨⟨2024, 11, 30⟩, some (1 / 10)⟩]), ("B", [])]).map
      (·.instrument) = ["A"] ∧
    "B" ∉ (calculate_linked_returns
        [("A", [⟨⟨2024, 11, 30⟩, some (1 / 10)⟩]), ("B", [])]).map
      (·.instrument) := by
  constructor <;>
    · norm_num [calculate_linked_returns, calculate_linked_returns_rows,
        instrument_summary, sort_by_ltd, insert_by_ltd, max_period_end,
        calculate_twr, calculate_trailing_return, mtd_start, qtd_start, ytd_start,
        months_into_quarter, date_sub_months, sub_months, days_in_month,
        is_leap_year, date_le, date_lt, List.filter, List.filterMap]
      all_goals decide

/-- C9 amended: the horizon helpers return a missing value — never an
error — on an empty series (`calculate_twr`, `calculate_trailing_return`,
and `calculate_portfolio_returns`, which yields the empty dict, embedded
as `none`), and the per-instrument summary loop is independent across
instruments: the rows of a concatenation of groups are the concatenation
of the rows, so one instrument's series never affects another's row. -/
theorem empty_series_missing_not_error :
    calculate_twr [] = none ∧
    (∀ k : ℤ, calculate_trailing_return [] k = none) ∧
    calculate_portfolio_returns [] = none ∧
    (∀ gs1 gs2 : List (String × List AVRow),
      calculate_linked_returns_rows (gs1 ++ gs2) =
        calculate_linked_returns_rows gs1 ++ calculate_linked_returns_rows gs2) := by
  refine ⟨rfl, fun k => rfl, rfl, fun gs1 gs2 => ?_⟩
  unfold calculate_linked_returns_rows
  exact List.filterMap_append gs1 gs2 _

/-- C3: no-reset LTD linking.  The canonical implementation
`calculate_geometric_returns` satisfies the claimed recurrence exactly:
the entry for a leading defined return `v` is `v`, a defined return at
position `n+1` multiplies the previous linked value through
`(1 + linked)·(1 + r) − 1`, an undefined one contributes factor 1 (the
linked value carries over), and the two-period example gives
`(1.05)(1.03) − 1 = 0.0815`.  The `cumprod` variant of
`src/tost_return_analytics.py` (lines 107–110) instead scales the
fractional returns by `1/100` before compounding and produces
`0.080015` on the same input. -/
theorem ltd_linking_canonical_vs_cumprod :
    calculate_geometric_returns [some (1 / 20), some (3 / 100)] =
      [1 / 20, 163 / 2000] ∧
    (∀ (v : ℚ) (rets : List (Option ℚ)),
      (calculate_geometric_returns (some v :: rets))[0]? = some v) ∧
    (∀ (rets : List (Option ℚ)) (n : ℕ) (v : ℚ),
      rets[n + 1]? = some (some v) →
      (calculate_geometric_returns rets)[n + 1]? =
        ((calculate_geometric_returns rets)[n]?).map
          fun p => (1 + p) * (1 + v) - 1) ∧
    (∀ (rets : List (Option ℚ)) (n : ℕ), rets[n + 1]? = some none →
      (calculate_geometric_returns rets)[n + 1]? =
        (calculate_geometric_returns rets)[n]?) ∧
    ltd_return_cumprod [some (1 / 20), some (3 / 100)] =
      [some (1 / 20), some (16003 / 200000)] ∧
    (16003 : ℚ) / 200000 ≠ 163 / 2000 := by
  refine ⟨?_, ?_, ?_, ?_, ?_, ?_⟩
  · norm_num [calculate_geometric_returns, geometric_returns_go]
  · intro v rets
    simp [calculate_geometric_returns, geometric_returns_go]
  · exact fun rets n v h => geometric_returns_go_getElem_succ_some 1 rets n v h
  · exact fun rets n h => geometric_returns_go_getElem_succ_none 1 rets n h
  · norm_num [ltd_return_cumprod, ltd_return_cumprod.go]
  · norm_num

/-- C3, witness: the recurrence instantiated at the two-period example and
the carry-over instantiated at a trailing undefined return. -/
theorem ltd_linking_canonical_vs_cumprod_witness :
    (calculate_geometric_returns [some (1 / 20), some (3 / 100)])[1]? =
      ((calculate_geometric_returns [some (1 / 20), some (3 / 100)])[0]?).map
        (fun p => (1 + p) * (1 + (3 / 100 : ℚ)) - 1) ∧
    (calculate_geometric_returns [some (1 / 20), none])[1]? =
      (calculate_geometric_returns [some (1 / 20), none])[0]? :=
  ⟨ltd_linking_canonical_vs_cumprod.2.2.1 [some (1 / 20), some (3 / 100)] 0
      (3 / 100) rfl,
   ltd_linking_canonical_vs_cumprod.2.2.2.1 [some (1 / 20), none] 0 rfl⟩

/-- C4: reset-on-flat linking.  In `calculate_geometric_linked_returns`
(`src/TOST_return.py`) every period with `Cumulative_Net_Tx == 0`
(`shares_eom == 0`) gets linked value exactly 0, and the claim's worked
example `[0.10 open, 0.05 closing to 0, 0.08 reopened] → [0.10, 0, 0.08]`
holds.  But compounding across two consecutive open periods divides the
fractional returns by 100 (treating them as percentages): two periods of
0.10 give `((1.001)² − 1)·100 = 0.2001`, not the geometric link
`(1.1)(1.1) − 1 = 0.21` required by the claim. -/
theorem reset_linker_flat_and_percent_scaling :
    (∀ (rows : List (ℚ × ℚ)) (n : ℕ) (r : ℚ), rows[n]? = some (0, r) →
      (calculate_geometric_linked_returns rows)[n]? = some 0) ∧
    calculate_geometric_linked_returns [(5, 1 / 10), (0, 1 / 20), (3, 2 / 25)] =
      [1 / 10, 0, 2 / 25] ∧
    calculate_geometric_linked_returns [(5, 1 / 10), (5, 1 / 10)] =
      [1 / 10, 2001 / 10000] ∧
    (2001 : ℚ) / 10000 ≠ (1 + 1 / 10) * (1 + 1 / 10) - 1 := by
  refine ⟨fun rows n r h => geometric_linked_go_getElem_flat 0 rows n r h, ?_, ?_, ?_⟩
  · norm_num [calculate_geometric_linked_returns, calculate_geometric_linked_returns.go]
  · norm_num [calculate_geometric_linked_returns, calculate_geometric_linked_returns.go]
  · norm_num

/-- C4, witness: the forced zero instantiated at a closed-position period. -/
theorem reset_linker_flat_and_percent_scaling_witness :
    (calculate_geometric_linked_returns [(5, 1 / 10), (0, 1 / 2)])[1]? = some 0 :=
  reset_linker_flat_and_percent_scaling.1 [(5, 1 / 10), (0, 1 / 2)] 1 (1 / 2) rfl

/-- C5: a zero `average_capital` yields a missing Modified Dietz return
(never a division failure — the embedding is total), and a missing return
acts as factor 1 in every downstream product: dropping it does not change
`calculate_twr` (skipna product), appending it to the geometric linked
series repeats the previous linked value, and dropping it does not change
the portfolio product (`fillna(0)` makes the factor `1 + 0`). -/
theorem undefined_return_is_missing_identity :
    (∀ nav_bom nav_eom ncf wcf : ℚ, average_capital nav_bom wcf = 0 →
      modified_dietz_return nav_bom nav_eom ncf wcf = none) ∧
    (∀ (d : Date) (rows1 rows2 : List AVRow), rows1 ++ rows2 ≠ [] →
      calculate_twr (rows1 ++ ⟨d, none⟩ :: rows2) =
        calculate_twr (rows1 ++ rows2)) ∧
    (∀ rets : List (Option ℚ),
      calculate_geometric_returns (rets ++ [none]) =
        calculate_geometric_returns rets ++
          [(calculate_geometric_returns rets).getLastD 0]) ∧
    (∀ (d : Date) (rows1 rows2 : List AVRow), rows1 ++ rows2 ≠ [] →
      portfolio_twr (rows1 ++ ⟨d, none⟩ :: rows2) =
        portfolio_twr (rows1 ++ rows2)) := by
  refine ⟨?_, ?_, ?_, ?_⟩
  · intro nav_bom nav_eom ncf wcf h
    simp [modified_dietz_return, h]
  · intro d rows1 rows2 hne
    unfold calculate_twr
    rw [if_neg (by simp), if_neg (by simp [hne])]
    simp [List.filterMap_append]
  · intro rets
    have h0 : (0 : ℚ) = 1 - 1 := by norm_num
    rw [calculate_geometric_returns, geometric_returns_go_append,
      calculate_geometric_returns, h0, geometric_returns_go_getLastD]
    simp [geometric_returns_go]
  · intro d rows1 rows2 hne
    unfold portfolio_twr
    rw [if_neg (by simp), if_neg (by simp [hne])]
    simp

/-- C5, witness: the four parts instantiated at concrete inputs. -/
theorem undefined_return_is_missing_identity_witness :
    modified_dietz_return (-3) 7 2 3 = none ∧
    calculate_twr [⟨⟨2024, 1, 31⟩, some (1 / 10)⟩, ⟨⟨2024, 2, 29⟩, none⟩] =
      calculate_twr [⟨⟨2024, 1, 31⟩, some (1 / 10)⟩] ∧
    calculate_geometric_returns ([some (1 / 10)] ++ [none]) =
      calculate_geometric_returns [some (1 / 10)] ++
        [(calculate_geometric_returns [some (1 / 10)]).getLastD 0] ∧
    portfolio_twr [⟨⟨2024, 1, 31⟩, some (1 / 10)⟩, ⟨⟨2024, 2, 29⟩, none⟩] =
      portfolio_twr [⟨⟨2024, 1, 31⟩, some (1 / 10)⟩] :=
  ⟨undefined_return_is_missing_identity.1 (-3) 7 2 3 (by norm_num [average_capital]),
   undefined_return_is_missing_identity.2.1 ⟨2024, 2, 29⟩
     [⟨⟨2024, 1, 31⟩, some (1 / 10)⟩] [] (by simp),
   undefined_return_is_missing_identity.2.2.1 [some (1 / 10)],
   undefined_return_is_missing_identity.2.2.2 ⟨2024, 2, 29⟩
     [⟨⟨2024, 1, 31⟩, some (1 / 10)⟩] [] (by simp)⟩

/-- C7: the QTD window starts at the first day of the latest period's
calendar quarter.  For a latest period ending 2024-11-30 the start is
2024-10-01, and the `period_end_date >= qtd_start` filter keeps the
October and November periods while dropping September.  In general, for
any month `1 ≤ m ≤ 12`, `qtd_start` lands on day 1 of month
`m − (m−1) mod 3`, which is the first month of `m`'s quarter
(`3⌊(m−1)/3⌋ + 1`), in the same year. -/
theorem qtd_window_starts_at_quarter :
    qtd_start ⟨2024, 11, 30⟩ = ⟨2024, 10, 1⟩ ∧
    (([⟨⟨2024, 9, 30⟩, some 0⟩, ⟨⟨2024, 10, 31⟩, some 0⟩,
        ⟨⟨2024, 11, 30⟩, some 0⟩] : List AVRow).filter fun r =>
          date_le (qtd_start ⟨2024, 11, 30⟩) r.period_end_date).map
      (·.period_end_date) = [⟨2024, 10, 31⟩, ⟨2024, 11, 30⟩] ∧
    (∀ y m d : ℤ, 1 ≤ m → m ≤ 12 →
      qtd_start ⟨y, m, d⟩ = ⟨y, m - (m - 1) % 3, 1⟩ ∧
      m - (m - 1) % 3 = 3 * ((m - 1) / 3) + 1) := by
  refine ⟨?_, ?_, ?_⟩
  · norm_num [qtd_start, mtd_start, months_into_quarter, date_sub_months,
      sub_months, days_in_month, is_leap_year]
  · norm_num [qtd_start, mtd_start, months_into_quarter, date_sub_months,
      sub_months, days_in_month, is_leap_year, date_le, List.filter]
  · intro y m d h1 h2
    have hk : 0 ≤ (m - 1) % 3 ∧ (m - 1) % 3 ≤ m - 1 := by omega
    constructor
    · show date_sub_months (mtd_start ⟨y, m, d⟩) (months_into_quarter m) = _
      unfold mtd_start months_into_quarter
      rw [date_sub_months_day_one y m ((m - 1) % 3) (by omega) (by omega)]
    · omega

/-- C7, witness: the quarter-start property instantiated at May 2024. -/
theorem qtd_window_starts_at_quarter_witness :
    qtd_start ⟨2024, 5, 31⟩ = ⟨2024, (5 : ℤ) - (5 - 1) % 3, 1⟩ ∧
    (5 : ℤ) - (5 - 1) % 3 = 3 * ((5 - 1) / 3) + 1 :=
  qtd_window_starts_at_quarter.2.2 2024 5 31 (by norm_num) (by norm_num)

/-- C10: the no-reset linked series `calculate_geometric_returns` is
total — its output has one (always defined) entry per input period; at a
period with an undefined Modified Dietz return the output repeats the
previous period's linked value, and while no defined return has occurred
yet the output is 0. -/
theorem geometric_linked_series_total (rets : List (Option ℚ)) :
    (calculate_geometric_returns rets).length = rets.length ∧
    (∀ n : ℕ, rets[n + 1]? = some none →
      (calculate_geometric_returns rets)[n + 1]? =
        (calculate_geometric_returns rets)[n]?) ∧
    (∀ n : ℕ, n < rets.length → (∀ j, j ≤ n → rets[j]? = some none) →
      (calculate_geometric_returns rets)[n]? = some 0) := by
  refine ⟨geometric_returns_go_length 1 rets,
    fun n h => geometric_returns_go_getElem_succ_none 1 rets n h,
    fun n hn h => ?_⟩
  have hall := geometric_returns_go_getElem_all_none 1 rets n hn h
  simpa using hall

/-- C10, witness: totality, carry-over and leading-zero behavior at
concrete two-period inputs. -/
theorem geometric_linked_series_total_witness :
    (calculate_geometric_returns [none, some (1 / 2)]).length =
      ([none, some ((1 : ℚ) / 2)] : List (Option ℚ)).length ∧
    (calculate_geometric_returns [none, none])[1]? =
      (calculate_geometric_returns [none, none])[0]? ∧
    (calculate_geometric_returns [none, some (1 / 2)])[0]? = some 0 :=
  ⟨(geometric_linked_series_total [none, some (1 / 2)]).1,
   (geometric_linked_series_total [none, none]).2.1 0 rfl,
   (geometric_linked_series_total [none, some (1 / 2)]).2.2 0 (by simp)
     (fun j hj => by
       have hj0 : j = 0 := Nat.le_zero.mp hj
       subst hj0
       rfl)⟩

end InvestmentAnalytics
